import Mathlib

/-!
# Baskerville: template knowledge base — verification development

The repository under verification is a static knowledge base of
proof-of-concept vulnerability templates (three Solana/Anchor documents under
`src/extensions/knowledge/templates/solana/`).  The documents themselves are
embedded below verbatim as `List String` line lists.

The repository ships no executable engine.  The specification describes the
implied *Template Registry and Instantiation Engine* (parser, placeholder
resolver, registry, store).  Those components do not exist under `src/`, so
they are modelled here from the specification's own words; each such
definition carries a doc comment starting `Modelled from the spec:`.
-/

namespace Baskerville

/-! ## Placeholder token grammar

Modelled from the spec: "placeholder tokens in a fixed delimiter grammar
(e.g. `[[NAME]]` with curly braces, uppercase identifier)" — delimiters `\x7b\x7b`
`\x7d\x7d` around a nonempty identifier of uppercase letters, digits and
underscores, no nesting. -/

/-- String prefix test by character lists (kernel-reducible). -/
def strStarts (p s : String) : Bool :=
  p.data.isPrefixOf s.data

/-- A character allowed inside a placeholder token name (uppercase identifier
characters: uppercase letters, digits, underscore). -/
def isTokChar (c : Char) : Bool :=
  c.isUpper || c = '_' || c.isDigit

/-- Modelled from the spec: attempt to read one placeholder token at the head
of the character list: two opening braces, a nonempty run of identifier
characters, two closing braces.  Returns the token name. -/
def tokenAt : List Char → Option String
  | c1 :: c2 :: rest =>
    if c1 = '\x7b' ∧ c2 = '\x7b' then
      let name := rest.takeWhile isTokChar
      match rest.drop name.length with
      | d1 :: d2 :: _ =>
        if d1 = '\x7d' ∧ d2 = '\x7d' ∧ name ≠ [] then some (String.mk name) else none
      | _ => none
    else none
  | _ => none

/-- All placeholder-token names occurring anywhere in the character list
(with multiplicity, in order of their starting position). -/
def extractTokens : List Char → List String
  | [] => []
  | c :: rest =>
    match tokenAt (c :: rest) with
    | some n => n :: extractTokens rest
    | none => extractTokens rest

/-- Does some placeholder-token-shaped substring occur in the list? -/
def hasTokenB (cs : List Char) : Bool :=
  (List.range cs.length).any fun i => (tokenAt (cs.drop i)).isSome

/-- No brace character occurs in the list. -/
def braceFreeB (cs : List Char) : Bool :=
  cs.all fun c => !(c = '\x7b' || c = '\x7d')

/-- Modelled from the spec: single-pass literal substitution.  Scans left to
right; at a token occurrence whose name has a supplied value, emits the value
literally (never re-scanned) and continues after the token; otherwise copies
one character.  `fuel` bounds recursion; it is instantiated with the list
length, which suffices because each step consumes at least one character. -/
def substAux (P : List (String × String)) : Nat → List Char → List Char
  | 0, _ => []
  | _ + 1, [] => []
  | fuel + 1, c :: rest =>
    match tokenAt (c :: rest) with
    | some n =>
      match P.lookup n with
      | some v => v.data ++ substAux P fuel (rest.drop (n.length + 3))
      | none => c :: substAux P fuel rest
    | none => c :: substAux P fuel rest

/-- Single-pass substitution of the parameters `P` into a string. -/
def subst (P : List (String × String)) (s : String) : String :=
  String.mk (substAux P s.data.length s.data)

/-- Every brace character in the list lies inside a well-formed placeholder
token occurrence: scanning left to right and skipping over token occurrences,
no brace is met.  Same recursion structure (and fuel convention) as
`substAux`. -/
def noStrayAux : Nat → List Char → Bool
  | 0, _ => true
  | _ + 1, [] => true
  | fuel + 1, c :: rest =>
    match tokenAt (c :: rest) with
    | some n => noStrayAux fuel (rest.drop (n.length + 3))
    | none => !(c = '\x7b' || c = '\x7d') && noStrayAux fuel rest

/-- Braces appear only inside token occurrences of the string. -/
def noStrayB (cs : List Char) : Bool :=
  noStrayAux cs.length cs

/-! ## Data model

Modelled from the spec: Template, sections with roles, raw documents,
instantiation artifacts, error taxonomy. -/

/-- Modelled from the spec: the role of a section, one of
vulnerable_pattern, exploit_scenario, fix. -/
inductive Role
  | vulnerablePattern
  | exploitScenario
  | fix
deriving DecidableEq, Repr

/-- A raw section of an input document: its banner heading line
(comment marker stripped) and its text. -/
structure RawSection where
  heading : String
  text : String
deriving DecidableEq, Repr

/-- A raw input document: header metadata plus banner-delimited sections. -/
structure RawDocument where
  chain : String
  vulnKind : String
  title : String
  summary : String
  sections : List RawSection
deriving DecidableEq, Repr

/-- A parsed section: role tag plus text. -/
structure Sect where
  role : Role
  text : String
deriving DecidableEq, Repr

/-- Modelled from the spec: a parsed template — id, chain, vulnerability kind,
title, ordered sections, and the derived set of placeholder names. -/
structure Template where
  id : String
  chain : String
  vulnKind : String
  title : String
  sections : List Sect
  placeholders : List String
deriving DecidableEq, Repr

/-- Modelled from the spec: the instantiation result — the template id and
the sections with every placeholder replaced. -/
structure InstantiatedArtifact where
  templateId : String
  sections : List Sect
deriving DecidableEq, Repr

/-- Modelled from the spec: parse failures — no sections, unrecognized
section role, malformed placeholder token. -/
inductive ParseError
  | noSections
  | unknownRole (heading : String)
  | malformedToken (heading : String)
deriving DecidableEq, Repr

/-- Modelled from the spec: resolution failures — missing parameter keys
(all of them reported), or a supplied value that would itself produce
placeholder-token-shaped text (re-substitution ambiguity). -/
inductive ResolutionError
  | missingKeys (keys : List String)
  | substitutionAmbiguous (keys : List String)
deriving DecidableEq, Repr

/-! ## Parser

Modelled from the spec: `parse(RawDocument) -> Template` failing when the
document declares no sections, a section role tag is unrecognized, or a
placeholder token is malformed; `placeholders` is the derived exact set of
distinct tokens across all sections. -/

/-- Modelled from the spec: classify a section heading into a role; the three
example documents use headings starting VULNERABLE / EXPLOIT / FIX. -/
def roleOf (h : String) : Option Role :=
  if strStarts ("VULNERABLE") h then some .vulnerablePattern
  else if strStarts ("EXPLOIT") h then some .exploitScenario
  else if strStarts ("FIX") h then some .fix
  else none

/-- A malformed placeholder token occurrence: a double opening brace that does
not begin a well-formed token. -/
def malformedB : List Char → Bool
  | c1 :: c2 :: rest =>
    (if c1 = '\x7b' ∧ c2 = '\x7b' then (tokenAt (c1 :: c2 :: rest)).isNone else false)
      || malformedB (c2 :: rest)
  | _ => false

/-- Parse one raw section: recognize its role and reject malformed tokens. -/
def parseSection (s : RawSection) : Except ParseError Sect :=
  match roleOf s.heading with
  | none => .error (.unknownRole s.heading)
  | some r =>
    if malformedB s.text.data then .error (.malformedToken s.heading)
    else .ok ⟨r, s.text⟩

/-- The derived placeholder set of a document: the distinct token names
occurring across all section texts, in first-occurrence order. -/
def placeholdersOf (sections : List RawSection) : List String :=
  (sections.flatMap fun s => extractTokens s.text.data).dedup

/-- Modelled from the spec: lowercase title slug used in the template id. -/
def slug (t : String) : String :=
  String.mk (t.data.map fun c => if c.isAlphanum then c.toLower else '-')

/-- Modelled from the spec: id derived from chain + vulnerability kind +
title slug. -/
def templateId (D : RawDocument) : String :=
  D.chain ++ ":" ++ D.vulnKind ++ ":" ++ slug D.title

/-- Modelled from the spec: the parser.  Rejects empty documents, sections
with unrecognized roles, and malformed tokens; otherwise builds the template
with the derived exact placeholder set. -/
def parse (D : RawDocument) : Except ParseError Template :=
  if D.sections.isEmpty then .error .noSections
  else
    (D.sections.mapM parseSection).map fun secs =>
      { id := templateId D
        chain := D.chain
        vulnKind := D.vulnKind
        title := D.title
        sections := secs
        placeholders := placeholdersOf D.sections }

/-! ## Resolver

Modelled from the spec: `resolve(Template, parameters)` validates
completeness (reporting every missing key), rejects substitution-ambiguous
values for declared keys, and otherwise performs single-pass substitution;
extra parameters are ignored. -/

/-- Modelled from the spec: the placeholder resolver. -/
def resolve (T : Template) (P : List (String × String)) :
    Except ResolutionError InstantiatedArtifact :=
  let missing := T.placeholders.filter fun k => (P.lookup k).isNone
  if missing.isEmpty then
    let bad := T.placeholders.filter fun k =>
      match P.lookup k with
      | some v => hasTokenB v.data
      | none => false
    if bad.isEmpty then
      .ok ⟨T.id, T.sections.map fun s => ⟨s.role, subst P s.text⟩⟩
    else .error (.substitutionAmbiguous bad)
  else .error (.missingKeys missing)

/-- A template is well formed when its `placeholders` field is the exact
derived set of distinct token names across its sections (the data-model
invariant the parser establishes). -/
def Template.Wf (T : Template) : Prop :=
  T.placeholders = ((T.sections.flatMap fun s => extractTokens s.text.data).dedup)

/-- The parameters cover every declared placeholder of the template. -/
def Covers (T : Template) (P : List (String × String)) : Prop :=
  ∀ k ∈ T.placeholders, (P.lookup k).isSome

/-! ## Registry and store

Modelled from the spec: catalog of parsed templates, lookup by chain and
kind, reload by building a new catalog and swapping it in one step. -/

/-- The in-memory catalog: the loaded templates. -/
abbrev Catalog := List Template

/-- Modelled from the spec: load documents into a catalog; documents that
fail to parse are skipped (load continues for the rest). -/
def loadCatalog (docs : List RawDocument) : Catalog :=
  docs.filterMap fun d => (parse d).toOption

/-- Modelled from the spec: lookup by chain and vulnerability kind, returning
the matching template ids in catalog order. -/
def byChainAndKind (chain kind : String) (cat : Catalog) : List String :=
  (cat.filter fun t => t.chain == chain && t.vulnKind == kind).map Template.id

/-- Modelled from the spec: a reader/store system: the process-wide current
catalog and the snapshot a reader holds (if it has taken one). -/
structure ReaderSys where
  current : Catalog
  snap : Option Catalog
deriving Repr

/-- An event of the concurrent host: the reader takes a snapshot, a reload
replaces the whole catalog, or the reader performs a lookup through its
snapshot. -/
inductive Ev
  | takeSnap
  | reloadEv (docs : List RawDocument)
  | readEv (chain kind : String)
deriving DecidableEq

/-- Modelled from the spec: one step of the system.  `reload` builds the new
catalog and swaps it in a single step; a read goes through the reader's held
snapshot and produces a result. -/
def stepEv (s : ReaderSys) : Ev → ReaderSys × Option (List String)
  | .takeSnap => (⟨s.current, some s.current⟩, none)
  | .reloadEv docs => (⟨loadCatalog docs, s.snap⟩, none)
  | .readEv chain kind => (s, s.snap.map (byChainAndKind chain kind))

/-- Run a list of events, collecting the results of the reads in order. -/
def runEvents (s : ReaderSys) : List Ev → List (List String)
  | [] => []
  | e :: es =>
    let p := stepEv s e
    p.2.toList ++ runEvents p.1 es

/-- The read results a reader would obtain from the fixed catalog `c`. -/
def readsFrom (c : Catalog) : List Ev → List (List String)
  | [] => []
  | e :: es =>
    match e with
    | .readEv chain kind => byChainAndKind chain kind c :: readsFrom c es
    | _ => readsFrom c es


/-! ## The three source documents, embedded verbatim

The line lists below are the exact contents of the three files under
`src/extensions/knowledge/templates/solana/`.  The `RawDocument` values are
built from them: metadata transcribed from each file's header comment (with
the vulnerability-kind tags the spec itself assigns to these documents), and
sections cut at the banner lines (`// ====...====`): each section is the
heading line between a banner pair plus the lines up to the next banner. -/

/-- The banner line delimiting sections in the three source files: a comment
marker followed by sixty equals signs. -/
def bannerLine : String := "// " ++ String.mk (List.replicate 60 ('='))

/-- The lines of `src/extensions/knowledge/templates/solana/missing_signer.rs`, verbatim. -/
def missingSignerLines : List String := [
  "// PoC Template: Missing Signer Check",
  "// Vulnerability: Instruction handler does not verify the signer",
  "// Chain: Solana/Anchor",
  "//",
  "// This template demonstrates how a missing signer check allows",
  "// an attacker to execute privileged operations.",
  "",
  "use anchor_lang::prelude::*;",
  "",
  bannerLine,
  "// VULNERABLE INSTRUCTION (example)",
  bannerLine,
  "// pub fn vulnerable_withdraw(ctx: Context<Withdraw>, amount: u64) -> Result<()> \x7b",
  "//     // BUG: No check that ctx.accounts.authority is the signer",
  "//     let vault = &mut ctx.accounts.vault;",
  "//     vault.balance -= amount;",
  "//     // ... transfer lamports ...",
  "//     Ok(())",
  "// \x7d",
  "",
  bannerLine,
  "// EXPLOIT TEST (Anchor test framework)",
  bannerLine,
  "// #[cfg(test)]",
  "// mod tests \x7b",
  "//     use super::*;",
  "//     use anchor_lang::solana_program::system_instruction;",
  "//",
  "//     #[test]",
  "//     fn test_missing_signer_exploit() \x7b",
  "//         // 1. Set up program and accounts",
  "//         // let program = \x7b\x7bPROGRAM_ID\x7d\x7d;",
  "//         // let vault = \x7b\x7bVAULT_ACCOUNT\x7d\x7d;",
  "//         // let attacker = Keypair::new();",
  "//",
  "//         // 2. Call withdraw with attacker as authority (not the real owner)",
  "//         // let ix = instruction::Withdraw \x7b",
  "//         //     amount: vault_balance,",
  "//         // \x7d;",
  "//         // let accounts = accounts::Withdraw \x7b",
  "//         //     vault: vault.pubkey(),",
  "//         //     authority: attacker.pubkey(),  // Attacker, not real owner!",
  "//         //     system_program: system_program::ID,",
  "//         // \x7d;",
  "//",
  "//         // 3. Should succeed if signer check is missing",
  "//         // assert!(tx.is_ok(), \"Exploit: unauthorized withdrawal succeeded\");",
  "//     \x7d",
  "// \x7d",
  "",
  bannerLine,
  "// FIX: Add signer validation",
  bannerLine,
  "// #[derive(Accounts)]",
  "// pub struct Withdraw<'info> \x7b",
  "//     #[account(mut, has_one = authority)]",
  "//     pub vault: Account<'info, Vault>,",
  "//     pub authority: Signer<'info>,  // <-- This enforces signer check",
  "//     pub system_program: Program<'info, System>,",
  "// \x7d",
  ""]

/-- The lines of `src/extensions/knowledge/templates/solana/cpi_reentrancy.rs`, verbatim. -/
def cpiReentrancyLines : List String := [
  "// PoC Template: CPI Reentrancy / Privilege Escalation",
  "// Vulnerability: Unsafe CPI call allowing privilege escalation",
  "// Chain: Solana/Anchor",
  "//",
  "// Demonstrates how an attacker can exploit CPI to escalate privileges",
  "// or re-enter the program with unexpected state.",
  "",
  bannerLine,
  "// VULNERABLE CODE PATTERN",
  bannerLine,
  "// pub fn process_payment(ctx: Context<Payment>, amount: u64) -> Result<()> \x7b",
  "//     let vault = &mut ctx.accounts.vault;",
  "//     vault.balance -= amount;  // State change BEFORE CPI",
  "//",
  "//     // CPI to token program - if target is attacker-controlled, reentrancy possible",
  "//     let cpi_accounts = Transfer \x7b",
  "//         from: ctx.accounts.vault_token.to_account_info(),",
  "//         to: ctx.accounts.recipient_token.to_account_info(),",
  "//         authority: ctx.accounts.vault_authority.to_account_info(),",
  "//     \x7d;",
  "//     let cpi_program = ctx.accounts.token_program.to_account_info();",
  "//     // BUG: If token_program is not validated, attacker can pass malicious program",
  "//     token::transfer(CpiContext::new(cpi_program, cpi_accounts), amount)?;",
  "//",
  "//     Ok(())",
  "// \x7d",
  "",
  bannerLine,
  "// EXPLOIT SCENARIO",
  bannerLine,
  "// 1. Attacker deploys malicious program that mimics Token program interface",
  "// 2. Attacker calls process_payment with malicious_program as token_program",
  "// 3. Malicious program re-enters process_payment before state is finalized",
  "// 4. Vault balance is drained through repeated withdrawals",
  "",
  bannerLine,
  "// FIX: Validate CPI target program",
  bannerLine,
  "// #[derive(Accounts)]",
  "// pub struct Payment<'info> \x7b",
  "//     #[account(mut)]",
  "//     pub vault: Account<'info, Vault>,",
  "//     pub token_program: Program<'info, Token>,  // <-- Anchor validates this is SPL Token",
  "//     // ... other accounts",
  "// \x7d",
  ""]

/-- The lines of `src/extensions/knowledge/templates/solana/pda_seed_collision.rs`, verbatim. -/
def pdaSeedCollisionLines : List String := [
  "// PoC Template: PDA Seed Collision",
  "// Vulnerability: Different account types sharing PDA seeds",
  "// Chain: Solana/Anchor",
  "//",
  "// If two different account types use the same seed structure,",
  "// an attacker can create a collision to confuse the program.",
  "",
  bannerLine,
  "// VULNERABLE CODE PATTERN",
  bannerLine,
  "// // Both UserProfile and UserConfig derive PDAs from just the user's pubkey",
  "// #[account]",
  "// pub struct UserProfile \x7b",
  "//     pub user: Pubkey,",
  "//     pub balance: u64,",
  "// \x7d",
  "//",
  "// #[account]",
  "// pub struct UserConfig \x7b",
  "//     pub user: Pubkey,",
  "//     pub is_admin: bool,",
  "// \x7d",
  "//",
  "// // seeds = [b\"user\", user.key().as_ref()] for BOTH types!",
  "// // An attacker could initialize UserConfig where UserProfile is expected",
  "",
  bannerLine,
  "// EXPLOIT SCENARIO",
  bannerLine,
  "// 1. Attacker initializes a UserConfig with is_admin = true",
  "// 2. The PDA is: seeds = [b\"user\", attacker.key().as_ref()]",
  "// 3. When program expects UserProfile at this PDA, it deserializes",
  "//    UserConfig data as UserProfile (if discriminator isn't checked)",
  "// 4. balance field overlaps with is_admin/user fields -> corruption",
  "",
  bannerLine,
  "// FIX: Use type-specific seed prefixes",
  bannerLine,
  "// // For UserProfile: seeds = [b\"profile\", user.key().as_ref()]",
  "// // For UserConfig:  seeds = [b\"config\", user.key().as_ref()]",
  "// // This ensures PDAs are unique per type"]

/-- The half-open line range from `a` (inclusive) to `b` (exclusive) of
`ls`, joined with newlines. -/
def sliceLines (ls : List String) (a b : Nat) : String :=
  String.intercalate ("\n") ((ls.drop a).take (b - a))

/-- The heading text on line `i` of `ls`, with the `// ` comment marker
stripped. -/
def headingAt (ls : List String) (i : Nat) : String :=
  String.mk (((ls.drop i).headD ("")).data.drop 3)

/-- The raw document of `missing_signer.rs` (banners on lines 10, 12, 21,
23, 51, 53 in 1-indexed terms; 0-indexed heading lines 10, 21, 51). -/
def missingSignerDoc : RawDocument where
  chain := "solana"
  vulnKind := "missing-signer-check"
  title := "Missing Signer Check"
  summary := "Instruction handler does not verify the signer"
  sections :=
    [⟨headingAt missingSignerLines 10, sliceLines missingSignerLines 12 20⟩,
     ⟨headingAt missingSignerLines 21, sliceLines missingSignerLines 23 50⟩,
     ⟨headingAt missingSignerLines 51, sliceLines missingSignerLines 53 61⟩]

/-- The raw document of `cpi_reentrancy.rs` (0-indexed heading lines 8, 28,
36). -/
def cpiReentrancyDoc : RawDocument where
  chain := "solana"
  vulnKind := "cpi-reentrancy"
  title := "CPI Reentrancy / Privilege Escalation"
  summary := "Unsafe CPI call allowing privilege escalation"
  sections :=
    [⟨headingAt cpiReentrancyLines 8, sliceLines cpiReentrancyLines 10 27⟩,
     ⟨headingAt cpiReentrancyLines 28, sliceLines cpiReentrancyLines 30 35⟩,
     ⟨headingAt cpiReentrancyLines 36, sliceLines cpiReentrancyLines 38 46⟩]

/-- The raw document of `pda_seed_collision.rs` (0-indexed heading lines 8,
27, 36). -/
def pdaSeedCollisionDoc : RawDocument where
  chain := "solana"
  vulnKind := "pda-seed-collision"
  title := "PDA Seed Collision"
  summary := "Different account types sharing PDA seeds"
  sections :=
    [⟨headingAt pdaSeedCollisionLines 8, sliceLines pdaSeedCollisionLines 10 26⟩,
     ⟨headingAt pdaSeedCollisionLines 27, sliceLines pdaSeedCollisionLines 29 35⟩,
     ⟨headingAt pdaSeedCollisionLines 36, sliceLines pdaSeedCollisionLines 38 41⟩]

/-- The catalog obtained by loading the three example documents. -/
def exampleCatalog : Catalog :=
  loadCatalog [missingSignerDoc, cpiReentrancyDoc, pdaSeedCollisionDoc]

/-! ## Predicates and concrete inputs used by the statements -/

/-- The token named `n` occurs textually in some section of the document. -/
def TokenPresent (n : String) (D : RawDocument) : Prop :=
  ∃ s ∈ D.sections, ∃ i, tokenAt (s.text.data.drop i) = some n

/-- The whole value syntactically matches the placeholder token grammar
(it is exactly one token, such as the value consisting of `INJECTED` in
double braces). -/
def IsTokenShapedB (v : String) : Bool :=
  match tokenAt v.data with
  | some nm => decide (v.data.length = nm.length + 4)
  | none => false

/-- A line that does not execute: blank or a `//` line comment.  The three
source files contain no block comments, so these are the only inert forms. -/
def inertLine (s : String) : Bool :=
  s.data.all (·.isWhitespace) || strStarts ("//") s


/-- A one-section document used to instantiate the parser theorems. -/
def sampleDoc : RawDocument where
  chain := "solana"
  vulnKind := "demo"
  title := "Demo"
  summary := ""
  sections := [⟨"VULNERABLE demo", "check \x7b\x7bSIGNER\x7d\x7d"⟩]

/-- The template `parse` produces from `sampleDoc`. -/
def sampleTemplate : Template where
  id := "solana:demo:demo"
  chain := "solana"
  vulnKind := "demo"
  title := "Demo"
  sections := [⟨.vulnerablePattern, "check \x7b\x7bSIGNER\x7d\x7d"⟩]
  placeholders := ["SIGNER"]

/-- The template of the spec's scenario: one section `check` followed by the
`SIGNER` token. -/
def scenarioTemplate : Template where
  id := "solana:demo:demo"
  chain := "solana"
  vulnKind := "demo"
  title := "Demo"
  sections := [⟨.vulnerablePattern, "check \x7b\x7bSIGNER\x7d\x7d"⟩]
  placeholders := ["SIGNER"]

/-- The spec scenario's parameters: `SIGNER` mapped to `Keypair_ABC`. -/
def scenarioParams : List (String × String) := [("SIGNER", "Keypair_ABC")]

/-- The artifact the spec scenario expects: section text `check Keypair_ABC`. -/
def scenarioArtifact : InstantiatedArtifact where
  templateId := "solana:demo:demo"
  sections := [⟨.vulnerablePattern, "check Keypair_ABC"⟩]

/-- Parameters mapping the declared key `SIGNER` to a value that is itself a
placeholder token (`INJECTED` in double braces). -/
def injectionParams : List (String × String) :=
  [("SIGNER", "\x7b\x7bINJECTED\x7d\x7d")]

/-- A document whose single section is the `A` token followed by `C` and a
stray closing double brace. -/
def cexDoc : RawDocument where
  chain := "solana"
  vulnKind := "k"
  title := "T"
  summary := ""
  sections := [⟨"VULNERABLE", "\x7b\x7bA\x7d\x7dC\x7d\x7d"⟩]

/-- The template `parse` produces from `cexDoc`: its placeholder set is
exactly the derived set, namely just `A`. -/
def cexTemplate : Template where
  id := "solana:k:t"
  chain := "solana"
  vulnKind := "k"
  title := "T"
  sections := [⟨.vulnerablePattern, "\x7b\x7bA\x7d\x7dC\x7d\x7d"⟩]
  placeholders := ["A"]

/-- Parameters for `cexTemplate`: `A` mapped to a value that is not itself
token shaped (an opening double brace followed by `B`). -/
def cexParams : List (String × String) := [("A", "\x7b\x7bB")]

instance {ε α : Type} [DecidableEq ε] [DecidableEq α] : DecidableEq (Except ε α) :=
  fun a b =>
    match a, b with
    | .ok x, .ok y =>
      if h : x = y then isTrue (by rw [h]) else isFalse (fun hc => h (Except.ok.inj hc))
    | .error e, .error f =>
      if h : e = f then isTrue (by rw [h]) else isFalse (fun hc => h (Except.error.inj hc))
    | .ok _, .error _ => isFalse (fun hc => Except.noConfusion hc)
    | .error _, .ok _ => isFalse (fun hc => Except.noConfusion hc)

instance (T : Template) (P : List (String × String)) : Decidable (Covers T P) :=
  inferInstanceAs (Decidable (∀ k ∈ T.placeholders, (P.lookup k).isSome = true))

instance (T : Template) : Decidable T.Wf :=
  inferInstanceAs
    (Decidable (T.placeholders = (T.sections.flatMap fun s => extractTokens s.text.data).dedup))

/-! ## Lemmas about the token scanner -/

theorem tokenAt_nil : tokenAt [] = none := rfl

theorem tokenAt_shape {xs : List Char} {n : String} (h : tokenAt xs = some n) :
    ∃ rest, xs = '\x7b' :: '\x7b' :: rest := by
  match xs with
  | [] => simp [tokenAt] at h
  | [c] => simp [tokenAt] at h
  | c1 :: c2 :: rest =>
    refine ⟨rest, ?_⟩
    unfold tokenAt at h
    by_cases hc : c1 = '\x7b' ∧ c2 = '\x7b'
    · rw [hc.1, hc.2]
    · simp [hc] at h

theorem tokenAt_pos_length {xs : List Char} {n : String} (h : tokenAt xs = some n) :
    0 < xs.length := by
  obtain ⟨rest, hr⟩ := tokenAt_shape h
  simp [hr]

theorem mem_extractTokens {cs : List Char} {n : String} :
    n ∈ extractTokens cs ↔ ∃ i, tokenAt (cs.drop i) = some n := by
  induction cs with
  | nil => simp [extractTokens, tokenAt]
  | cons c rest ih =>
    rcases htok : tokenAt (c :: rest) with _ | m
    · simp only [extractTokens, htok]
      rw [ih]
      constructor
      · rintro ⟨i, hi⟩
        exact ⟨i + 1, by rwa [List.drop_succ_cons]⟩
      · rintro ⟨i, hi⟩
        cases i with
        | zero =>
          rw [List.drop_zero, htok] at hi
          exact absurd hi (by simp)
        | succ j =>
          rw [List.drop_succ_cons] at hi
          exact ⟨j, hi⟩
    · simp only [extractTokens, htok]
      rw [List.mem_cons, ih]
      constructor
      · rintro (rfl | ⟨i, hi⟩)
        · exact ⟨0, by simpa using htok⟩
        · exact ⟨i + 1, by rwa [List.drop_succ_cons]⟩
      · rintro ⟨i, hi⟩
        cases i with
        | zero =>
          rw [List.drop_zero, htok] at hi
          exact Or.inl (Option.some.inj hi).symm
        | succ j =>
          rw [List.drop_succ_cons] at hi
          exact Or.inr ⟨j, hi⟩

theorem hasTokenB_of_tokenAt {cs : List Char} {n : String} (h : tokenAt cs = some n) :
    hasTokenB cs = true := by
  unfold hasTokenB
  rw [List.any_eq_true]
  exact ⟨0, List.mem_range.2 (tokenAt_pos_length h), by simp [h]⟩

theorem tokenAt_drop_eq_none_of_braceFree {cs : List Char}
    (h : braceFreeB cs = true) (i : Nat) : tokenAt (cs.drop i) = none := by
  cases htok : tokenAt (cs.drop i) with
  | none => rfl
  | some n =>
    obtain ⟨rest, hr⟩ := tokenAt_shape htok
    have hbr : '\x7b' ∈ cs := by
      refine List.drop_subset i cs ?_
      rw [hr]
      exact List.mem_cons_self _ _
    unfold braceFreeB at h
    rw [List.all_eq_true] at h
    have := h _ hbr
    simp at this

theorem hasTokenB_eq_false_of_braceFree {cs : List Char}
    (h : braceFreeB cs = true) : hasTokenB cs = false := by
  unfold hasTokenB
  rw [List.any_eq_false]
  intro i _
  rw [tokenAt_drop_eq_none_of_braceFree h i]
  simp

/-! ## Lemmas about substitution -/

theorem lookup_append_of_isSome {α β : Type} [BEq α] (P Q : List (α × β)) (k : α)
    (h : (P.lookup k).isSome = true) : (P ++ Q).lookup k = P.lookup k := by
  induction P with
  | nil => simp [List.lookup] at h
  | cons p ps ih =>
    obtain ⟨a, b⟩ := p
    rw [List.cons_append, List.lookup, List.lookup]
    cases hk : k == a with
    | true => rfl
    | false =>
      apply ih
      rw [List.lookup, hk] at h
      exact h

theorem substAux_braceFree (P : List (String × String)) :
    ∀ (fuel : Nat) (cs : List Char), cs.length ≤ fuel →
      noStrayAux fuel cs = true →
      (∀ i n, tokenAt (cs.drop i) = some n →
        ∃ v, P.lookup n = some v ∧ braceFreeB v.data = true) →
      braceFreeB (substAux P fuel cs) = true := by
  intro fuel
  induction fuel with
  | zero => intro cs _ _ _; rfl
  | succ fuel ih =>
    intro cs hlen hstray hcov
    match cs with
    | [] => rfl
    | c :: rest =>
      rcases htok : tokenAt (c :: rest) with _ | n
      · simp only [substAux, noStrayAux, htok] at hstray ⊢
        rw [Bool.and_eq_true] at hstray
        unfold braceFreeB
        rw [List.all_cons, Bool.and_eq_true]
        refine ⟨hstray.1, ?_⟩
        refine ih rest (by simp at hlen; omega) hstray.2 ?_
        intro i m hm
        refine hcov (i + 1) m ?_
        rwa [List.drop_succ_cons]
      · obtain ⟨v, hv, hbv⟩ := hcov 0 n (by simpa using htok)
        simp only [substAux, noStrayAux, htok, hv] at hstray ⊢
        unfold braceFreeB
        rw [List.all_append, Bool.and_eq_true]
        refine ⟨hbv, ?_⟩
        refine ih _ ?_ hstray ?_
        · rw [List.length_drop]
          simp at hlen
          omega
        · intro i m hm
          refine hcov (n.length + 3 + i + 1) m ?_
          rw [List.drop_succ_cons]
          rwa [List.drop_drop] at hm

theorem substAux_append (P extra : List (String × String)) :
    ∀ (fuel : Nat) (cs : List Char),
      (∀ i n, tokenAt (cs.drop i) = some n → (P.lookup n).isSome = true) →
      substAux (P ++ extra) fuel cs = substAux P fuel cs := by
  intro fuel
  induction fuel with
  | zero => intro cs _; rfl
  | succ fuel ih =>
    intro cs hcov
    match cs with
    | [] => rfl
    | c :: rest =>
      rcases htok : tokenAt (c :: rest) with _ | n
      · simp only [substAux, htok]
        rw [ih rest fun i m hm => hcov (i + 1) m (by rwa [List.drop_succ_cons])]
      · have hsome := hcov 0 n (by simpa using htok)
        have happ : (P ++ extra).lookup n = P.lookup n :=
          lookup_append_of_isSome P extra n hsome
        rcases hv : P.lookup n with _ | v
        · rw [hv] at hsome
          simp at hsome
        · simp only [substAux, htok, happ, hv]
          rw [ih (rest.drop (n.length + 3)) ?_]
          intro i m hm
          refine hcov (n.length + 3 + i + 1) m ?_
          rw [List.drop_succ_cons]
          rwa [List.drop_drop] at hm

/-! ## Claim theorems -/

/-- Claim C1: for every valid document `D` (one the parser accepts), the
produced template's `placeholders` field is exactly the set of distinct
placeholder-token names textually present across `D`'s sections: it is
duplicate-free, contains every token occurring in some section, and contains
no token absent from all sections. -/
theorem parse_placeholders_exact (D : RawDocument) (T : Template)
    (h : parse D = .ok T) :
    T.placeholders.Nodup ∧ ∀ n, (n ∈ T.placeholders ↔ TokenPresent n D) := by
  unfold parse at h
  split at h
  · exact absurd h (by simp)
  · rcases hm : D.sections.mapM parseSection with e | secs
    · rw [hm] at h
      simp [Except.map] at h
    · rw [hm] at h
      simp only [Except.map] at h
      injection h with h2
      subst h2
      constructor
      · exact List.nodup_dedup _
      · intro n
        unfold TokenPresent
        show n ∈ placeholdersOf D.sections ↔ _
        unfold placeholdersOf
        rw [List.mem_dedup, List.mem_flatMap]
        constructor
        · rintro ⟨s, hs, hn⟩
          exact ⟨s, hs, mem_extractTokens.mp hn⟩
        · rintro ⟨s, hs, hn⟩
          exact ⟨s, hs, mem_extractTokens.mpr hn⟩

/-- Witness for C1: the theorem applied to the concrete one-section document
`sampleDoc`, whose exploit text holds the single token `SIGNER`. -/
theorem parse_placeholders_exact_witness :
    parse sampleDoc = .ok sampleTemplate ∧
    (sampleTemplate.placeholders.Nodup ∧
      ∀ n, (n ∈ sampleTemplate.placeholders ↔ TokenPresent n sampleDoc)) :=
  ⟨by decide, parse_placeholders_exact sampleDoc sampleTemplate (by decide)⟩

/-- Claim C3: resolving with parameters lacking at least one declared key
fails with `ResolutionError.missingKeys`, and the reported key list contains
exactly the declared keys absent from the parameters — every missing key,
not only the first. -/
theorem resolve_reports_all_missing (T : Template) (P : List (String × String))
    (h : ∃ k ∈ T.placeholders, P.lookup k = none) :
    ∃ M, resolve T P = .error (.missingKeys M) ∧
      ∀ k, (k ∈ M ↔ k ∈ T.placeholders ∧ P.lookup k = none) := by
  obtain ⟨k0, hk0, hn0⟩ := h
  have hmem : k0 ∈ T.placeholders.filter fun k => (P.lookup k).isNone :=
    List.mem_filter.2 ⟨hk0, by simp [hn0]⟩
  refine ⟨T.placeholders.filter fun k => (P.lookup k).isNone, ?_, ?_⟩
  · have hne : (T.placeholders.filter fun k => (P.lookup k).isNone).isEmpty = false := by
      rcases hfe : T.placeholders.filter fun k => (P.lookup k).isNone with _ | ⟨a, l⟩
      · rw [hfe] at hmem
        simp at hmem
      · rfl
    unfold resolve
    simp only [hne]
    simp
  · intro k
    rw [List.mem_filter]
    simp [Option.isNone_iff_eq_none]

/-- Witness for C3: the scenario template resolved with empty parameters
reports its one declared key `SIGNER` as missing. -/
theorem resolve_reports_all_missing_witness :
    ∃ M, resolve scenarioTemplate [] = .error (.missingKeys M) ∧
      ∀ k, (k ∈ M ↔ k ∈ scenarioTemplate.placeholders ∧
        List.lookup k ([] : List (String × String)) = none) :=
  resolve_reports_all_missing scenarioTemplate [] ⟨"SIGNER", by decide, rfl⟩

/-- Claim C4: if the parameters cover the placeholders but the value supplied
for some declared key is itself a placeholder-token-shaped string, `resolve`
fails with a `ResolutionError` (naming that key among the ambiguous ones)
instead of producing an artifact containing the re-scannable token. -/
theorem resolve_rejects_token_values (T : Template) (P : List (String × String))
    (hcov : Covers T P) (k v : String) (hk : k ∈ T.placeholders)
    (hv : P.lookup k = some v) (htok : IsTokenShapedB v = true) :
    ∃ B, resolve T P = .error (.substitutionAmbiguous B) ∧ k ∈ B := by
  have htok' : ∃ nm, tokenAt v.data = some nm := by
    unfold IsTokenShapedB at htok
    rcases ht : tokenAt v.data with _ | nm
    · rw [ht] at htok
      simp at htok
    · exact ⟨nm, rfl⟩
  obtain ⟨nm, hnm⟩ := htok'
  have hbadmem : k ∈ T.placeholders.filter fun k =>
      match P.lookup k with
      | some v => hasTokenB v.data
      | none => false := by
    refine List.mem_filter.2 ⟨hk, ?_⟩
    rw [hv]
    exact hasTokenB_of_tokenAt hnm
  have hmiss : (T.placeholders.filter fun k => (P.lookup k).isNone) = [] := by
    rw [List.filter_eq_nil_iff]
    intro a ha
    have hsome := hcov a ha
    rcases hl : P.lookup a with _ | w
    · rw [hl] at hsome
      simp at hsome
    · simp [hl]
  have hbadne : (T.placeholders.filter fun k =>
      match P.lookup k with
      | some v => hasTokenB v.data
      | none => false).isEmpty = false := by
    rcases hfe : T.placeholders.filter fun k =>
        match P.lookup k with
        | some v => hasTokenB v.data
        | none => false with _ | ⟨a, l⟩
    · rw [hfe] at hbadmem
      simp at hbadmem
    · rfl
  refine ⟨_, ?_, hbadmem⟩
  unfold resolve
  simp only [hmiss, hbadne]
  simp

/-- Witness for C4: the scenario template with the value of the declared key
`SIGNER` equal to the token-shaped string of `INJECTED`. -/
theorem resolve_rejects_token_values_witness :
    ∃ B, resolve scenarioTemplate injectionParams = .error (.substitutionAmbiguous B) ∧
      "SIGNER" ∈ B :=
  resolve_rejects_token_values scenarioTemplate injectionParams (by decide)
    ("SIGNER") ("\x7b\x7bINJECTED\x7d\x7d") (by decide) rfl (by decide)

/-- Claim C6: `resolve` is a pure, deterministic function of its inputs: two
evaluations at the same template and parameters return the same artifact,
with byte-identical section texts. -/
theorem resolve_deterministic (T : Template) (P : List (String × String))
    (A A' : InstantiatedArtifact)
    (h : resolve T P = .ok A) (h' : resolve T P = .ok A') :
    A = A' ∧ A.sections.map Sect.text = A'.sections.map Sect.text := by
  have heq : A = A' := Except.ok.inj (h.symm.trans h')
  exact ⟨heq, by rw [heq]⟩

/-- Witness for C6 at the spec's scenario inputs. -/
theorem resolve_deterministic_witness :
    resolve scenarioTemplate scenarioParams = .ok scenarioArtifact ∧
    scenarioArtifact = scenarioArtifact :=
  ⟨by decide, (resolve_deterministic scenarioTemplate scenarioParams
    scenarioArtifact scenarioArtifact (by decide) (by decide)).1⟩

/-- The filter of missing keys is empty when the parameters cover the
placeholders. -/
theorem filter_missing_eq_nil {T : Template} {P : List (String × String)}
    (hcov : Covers T P) :
    (T.placeholders.filter fun k => (P.lookup k).isNone) = [] := by
  rw [List.filter_eq_nil_iff]
  intro a ha
  have hsome := hcov a ha
  rcases hl : P.lookup a with _ | w
  · rw [hl] at hsome
    simp at hsome
  · simp [hl]

/-- The filter of substitution-ambiguous keys is empty when every covered
value is brace-free. -/
theorem filter_bad_eq_nil {T : Template} {P : List (String × String)}
    (hvals : ∀ k ∈ T.placeholders, ∀ v, P.lookup k = some v → braceFreeB v.data = true) :
    (T.placeholders.filter fun k =>
      match P.lookup k with
      | some v => hasTokenB v.data
      | none => false) = [] := by
  rw [List.filter_eq_nil_iff]
  intro a ha
  rcases hl : P.lookup a with _ | v
  · simp [hl]
  · simp [hl, hasTokenB_eq_false_of_braceFree (hvals a ha v hl)]

/-- Claim C2 (amended): for a well-formed template whose parameters cover its
placeholders, `resolve` succeeds and extra parameters beyond the declared
keys are ignored without error (appending them leaves the result unchanged);
provided additionally that the section texts contain braces only inside
placeholder-token occurrences and the values supplied for the declared keys
contain no brace characters, no section text of the resulting artifact
contains a placeholder-token-shaped substring.  Substitution is single pass
by construction of `substAux` (an emitted value is never re-scanned). -/
theorem resolve_covered_noTokens (T : Template) (P : List (String × String))
    (hwf : T.Wf) (hcov : Covers T P)
    (hstray : ∀ s ∈ T.sections, noStrayB s.text.data = true)
    (hvals : ∀ k ∈ T.placeholders, braceFreeB (((P.lookup k).getD ("")).data) = true) :
    ∃ A : InstantiatedArtifact,
      resolve T P = .ok A ∧
      (∀ s ∈ A.sections, ∀ i, tokenAt (s.text.data.drop i) = none) ∧
      (∀ extra, resolve T (P ++ extra) = .ok A) := by
  have hvals' : ∀ k ∈ T.placeholders, ∀ v, P.lookup k = some v →
      braceFreeB v.data = true := by
    intro k hk v hv
    have := hvals k hk
    rwa [hv] at this
  have hocc : ∀ s ∈ T.sections, ∀ i n, tokenAt (s.text.data.drop i) = some n →
      ∃ v, P.lookup n = some v ∧ braceFreeB v.data = true := by
    intro s hs i n hn
    have hmem : n ∈ T.placeholders := by
      rw [hwf, List.mem_dedup, List.mem_flatMap]
      exact ⟨s, hs, mem_extractTokens.mpr ⟨i, hn⟩⟩
    have hsome := hcov n hmem
    rcases hl : P.lookup n with _ | v
    · rw [hl] at hsome
      simp at hsome
    · exact ⟨v, rfl, hvals' n hmem v hl⟩
  refine ⟨⟨T.id, T.sections.map fun s => ⟨s.role, subst P s.text⟩⟩, ?_, ?_, ?_⟩
  · unfold resolve
    rw [filter_missing_eq_nil hcov, filter_bad_eq_nil hvals']
    rfl
  · intro s' hs'
    rw [List.mem_map] at hs'
    obtain ⟨s, hs, rfl⟩ := hs'
    intro i
    exact tokenAt_drop_eq_none_of_braceFree
      (substAux_braceFree P s.text.data.length s.text.data le_rfl (hstray s hs) (hocc s hs)) i
  · intro extra
    have hcov' : Covers T (P ++ extra) := by
      intro k hk
      rw [lookup_append_of_isSome P extra k (hcov k hk)]
      exact hcov k hk
    have hvalsApp : ∀ k ∈ T.placeholders, ∀ v, (P ++ extra).lookup k = some v →
        braceFreeB v.data = true := by
      intro k hk v hv
      rw [lookup_append_of_isSome P extra k (hcov k hk)] at hv
      exact hvals' k hk v hv
    have hmapeq : (T.sections.map fun s => (⟨s.role, subst (P ++ extra) s.text⟩ : Sect))
        = T.sections.map fun s => (⟨s.role, subst P s.text⟩ : Sect) := by
      apply List.map_congr_left
      intro s hs
      have hsub : subst (P ++ extra) s.text = subst P s.text := by
        unfold subst
        rw [substAux_append P extra s.text.data.length s.text.data ?_]
        intro i n hn
        obtain ⟨v, hv, _⟩ := hocc s hs i n hn
        rw [hv]
        rfl
      rw [hsub]
    unfold resolve
    rw [filter_missing_eq_nil hcov', filter_bad_eq_nil hvalsApp]
    simp only [hmapeq]
    rfl

/-- Counterexample to claim C2 as stated: the parser-producible well-formed
template `cexTemplate` (section text: token `A`, then `C`, then a stray
closing double brace) with covering parameters `cexParams` (value: an opening
double brace and `B`, not itself token shaped) resolves successfully, yet the
resulting section text is `BC` in double braces — a placeholder-token-shaped
substring, contradicting the claimed absence of such substrings. -/
theorem resolve_rescannable_cex :
    parse cexDoc = .ok cexTemplate ∧
    cexTemplate.Wf ∧
    Covers cexTemplate cexParams ∧
    IsTokenShapedB ("\x7b\x7bB") = false ∧
    resolve cexTemplate cexParams =
      .ok ⟨"solana:k:t", [⟨.vulnerablePattern, "\x7b\x7bBC\x7d\x7d"⟩]⟩ ∧
    hasTokenB ("\x7b\x7bBC\x7d\x7d".data) = true := by decide

/-- Witness for C2 (amended) at the spec's scenario inputs: the template with
section `check` followed by the `SIGNER` token, resolved with `SIGNER` mapped
to `Keypair_ABC`. -/
theorem resolve_covered_noTokens_witness :
    Template.Wf scenarioTemplate ∧ Covers scenarioTemplate scenarioParams ∧
    (∃ A : InstantiatedArtifact,
      resolve scenarioTemplate scenarioParams = .ok A ∧
      (∀ s ∈ A.sections, ∀ i, tokenAt (s.text.data.drop i) = none) ∧
      (∀ extra, resolve scenarioTemplate (scenarioParams ++ extra) = .ok A)) :=
  ⟨by decide, by decide,
    resolve_covered_noTokens scenarioTemplate scenarioParams (by decide) (by decide)
      (by decide) (by decide)⟩

/-- Claim C5: reload atomicity in the snapshot model.  Once the reader holds
a snapshot catalog `c`, the results of all its subsequent lookups equal the
reads computed from that complete catalog alone, whatever reloads are
interleaved: the reader never observes templates of a new catalog mixed with
the old one. -/
theorem snapshot_reads_unmixed (cur c : Catalog) (evs : List Ev)
    (h : ∀ e ∈ evs, e ≠ Ev.takeSnap) :
    runEvents ⟨cur, some c⟩ evs = readsFrom c evs := by
  induction evs generalizing cur with
  | nil => rfl
  | cons e es ih =>
    cases e with
    | takeSnap => exact absurd rfl (h _ (List.mem_cons_self _ _))
    | reloadEv docs =>
      simp only [runEvents, stepEv, readsFrom, Option.toList, List.nil_append]
      exact ih (loadCatalog docs) (fun e he => h e (List.mem_cons_of_mem _ he))
    | readEv chain kind =>
      have hrec := ih cur (fun e he => h e (List.mem_cons_of_mem _ he))
      simp [runEvents, stepEv, readsFrom, hrec]

/-- Witness for C5: with a snapshot of the example catalog in hand, a reload
to the empty catalog followed by a lookup still reads from the complete old
catalog. -/
theorem snapshot_reads_unmixed_witness :
    (∀ e ∈ [Ev.reloadEv [], Ev.readEv ("solana") ("missing-signer-check")],
      e ≠ Ev.takeSnap) ∧
    runEvents ⟨exampleCatalog, some exampleCatalog⟩
        [Ev.reloadEv [], Ev.readEv ("solana") ("missing-signer-check")]
      = readsFrom exampleCatalog
        [Ev.reloadEv [], Ev.readEv ("solana") ("missing-signer-check")] :=
  ⟨by decide,
    snapshot_reads_unmixed exampleCatalog exampleCatalog
      [Ev.reloadEv [], Ev.readEv ("solana") ("missing-signer-check")] (by decide)⟩

set_option maxRecDepth 10000 in
/-- Claim C7: with the three example documents loaded, the lookup for chain
solana and kind missing-signer-check returns exactly the single id of the
template parsed from the missing-signer document, and the same lookup on
chain evm returns the empty sequence. -/
theorem lookup_examples :
    (parse missingSignerDoc).map Template.id
      = .ok ("solana:missing-signer-check:missing-signer-check") ∧
    byChainAndKind ("solana") ("missing-signer-check") exampleCatalog
      = ["solana:missing-signer-check:missing-signer-check"] ∧
    byChainAndKind ("evm") ("missing-signer-check") exampleCatalog = [] ∧
    exampleCatalog.length = 3 := by decide

/-- Counterexample to claim C8: line 8 (index 7) of `missing_signer.rs` is
the live item `use anchor_lang::prelude::*;`, neither blank nor a comment
line, so not every line of every source file is commented-out content. -/
theorem fully_commented_cex :
    missingSignerLines.get? 7 = some ("use anchor_lang::prelude::*;") ∧
    inertLine ("use anchor_lang::prelude::*;") = false ∧
    missingSignerLines.all inertLine = false := by decide

/-- Claim C8 (amended): every line of the three source files is blank or a
`//` comment line, except the single live item `use anchor_lang::prelude::*;`
on line 8 of `missing_signer.rs`; the other two files are fully inert. -/
theorem fully_commented_except_use :
    cpiReentrancyLines.all inertLine = true ∧
    pdaSeedCollisionLines.all inertLine = true ∧
    (missingSignerLines.eraseIdx 7).all inertLine = true ∧
    missingSignerLines.get? 7 = some ("use anchor_lang::prelude::*;") := by decide

set_option maxRecDepth 10000 in
/-- Claim C9: across the three documents exactly the two distinct
placeholder-token names `PROGRAM_ID` and `VAULT_ACCOUNT` occur, each once,
both inside the missing-signer document's exploit section (its second
section); the other two documents contain no placeholder tokens, so their
parsed templates declare the empty placeholder set. -/
theorem token_inventory :
    placeholdersOf (missingSignerDoc.sections ++ cpiReentrancyDoc.sections
        ++ pdaSeedCollisionDoc.sections) = ["PROGRAM_ID", "VAULT_ACCOUNT"] ∧
    (missingSignerDoc.sections.map fun s => extractTokens s.text.data)
      = [[], ["PROGRAM_ID", "VAULT_ACCOUNT"], []] ∧
    (missingSignerDoc.sections.map RawSection.heading).get? 1
      = some ("EXPLOIT TEST (Anchor test framework)") ∧
    (cpiReentrancyDoc.sections.map fun s => extractTokens s.text.data)
      = [[], [], []] ∧
    (pdaSeedCollisionDoc.sections.map fun s => extractTokens s.text.data)
      = [[], [], []] ∧
    (parse cpiReentrancyDoc).map Template.placeholders = .ok [] ∧
    (parse pdaSeedCollisionDoc).map Template.placeholders = .ok [] := by decide

set_option maxRecDepth 10000 in
/-- Claim C10: each document has exactly three banner-delimited sections (six
banner lines), parsed in the order vulnerable-pattern, exploit-scenario, fix;
but the heading wording for the same role differs across documents, so no
single fixed heading string identifies a role in all three documents. -/
theorem section_structure :
    (missingSignerLines.countP fun l => l == bannerLine) = 6 ∧
    (cpiReentrancyLines.countP fun l => l == bannerLine) = 6 ∧
    (pdaSeedCollisionLines.countP fun l => l == bannerLine) = 6 ∧
    (missingSignerDoc.sections.map RawSection.heading)
      = ["VULNERABLE INSTRUCTION (example)", "EXPLOIT TEST (Anchor test framework)",
         "FIX: Add signer validation"] ∧
    (cpiReentrancyDoc.sections.map RawSection.heading)
      = ["VULNERABLE CODE PATTERN", "EXPLOIT SCENARIO",
         "FIX: Validate CPI target program"] ∧
    (pdaSeedCollisionDoc.sections.map RawSection.heading)
      = ["VULNERABLE CODE PATTERN", "EXPLOIT SCENARIO",
         "FIX: Use type-specific seed prefixes"] ∧
    ((parse missingSignerDoc).map fun t => t.sections.map Sect.role)
      = .ok [.vulnerablePattern, .exploitScenario, .fix] ∧
    ((parse cpiReentrancyDoc).map fun t => t.sections.map Sect.role)
      = .ok [.vulnerablePattern, .exploitScenario, .fix] ∧
    ((parse pdaSeedCollisionDoc).map fun t => t.sections.map Sect.role)
      = .ok [.vulnerablePattern, .exploitScenario, .fix] ∧
    headingAt missingSignerLines 10 ≠ headingAt cpiReentrancyLines 8 ∧
    headingAt missingSignerLines 21 ≠ headingAt cpiReentrancyLines 28 ∧
    headingAt missingSignerLines 51 ≠ headingAt cpiReentrancyLines 36 ∧
    headingAt cpiReentrancyLines 36 ≠ headingAt pdaSeedCollisionLines 36 := by decide

end Baskerville
